import Mathlib

/-!
Shallow embedding of the TravelOps orchestration core
(src/agents/state.py, src/agents/nodes/Orchestrator.py,
src/agents/nodes/Travel.py, src/main.py).

Conventions of the embedding:
- a Python TypedDict with total=False becomes a Lean structure whose
  fields are all Option-valued; a field holding none models an absent key,
  and Python state.get(k, d) becomes field.getD d;
- a LangGraph node returning a partial update dict becomes a Lean
  function from the old state to the new state that overwrites exactly
  the keys the source writes and leaves every other field unchanged
  (LangGraph merges updates key-by-key, last write wins: none of these
  channels carries an append reducer in state.py);
- Python numbers used by the modelled code (budget_npr, a float in the
  source) are embedded as rationals: the code only compares them with
  integer literals and tests truthiness, operations on which float and
  rational semantics agree at every value the development evaluates;
- fallible Python code is embedded in Except String, the error carrying
  the exception rendered as text;
- outcomes of external collaborators (the structured-output LLM call,
  the MCP research tools) are universally quantified inputs of the node
  functions, one constructor per outcome the source distinguishes.
-/

namespace TravelOps

/-- Entries of research-result lists (flight / hotel / weather dicts) are
opaque to every property proved here, so they are embedded as strings. -/
abbrev ResItem := String

/-- Shape of a Python value awaited from a research task, as far as
research_executor_node inspects it (Travel.py lines 293-314): a list of
result items, a dict (in particular the single-key error marker dict
built by the except arms, carrying the error message), or None (the
result of the asyncio.sleep(0) placeholder used when a tool is
unavailable). -/
inductive PyValue where
  | pylist (items : List ResItem)
  | pydict (errorMsg : String)
  | pynone
deriving DecidableEq

/-- TravelState TypedDict (state.py lines 23-61, total=False: every key
may be absent). user_query is read by extract_constraints_node from the
same shared channel map, so it appears here as well. -/
structure TravelState where
  user_query : Option String := none
  user_phone : Option String := none
  origin : Option String := none
  destination : Option String := none
  departure_date : Option String := none
  return_date : Option String := none
  budget_npr : Option ℚ := none
  adults : Option Nat := none
  constraints_complete : Option Bool := none
  missing_constraints : Option (List String) := none
  weather_data : Option (List ResItem) := none
  flight_options : Option (List ResItem) := none
  hotel_options : Option (List ResItem) := none
  estimated_cost_npr : Option ℚ := none
  budget_feasible : Option Bool := none
  approval_prompt : Option String := none
  user_approved : Option Bool := none
  selected_flight_idx : Option Nat := none
  selected_hotel_idx : Option Nat := none
  whatsapp_sent : Option Bool := none
  errors : Option (List String) := none
  retry_count : Option Nat := none
deriving DecidableEq

/-- Python truthiness of an optional string: an absent key and the empty
string are falsy, every other string is truthy. -/
def truthyStr : Option String → Bool
  | none => false
  | some s => !s.isEmpty

/-- Python truthiness of an optional number: absent and zero are falsy. -/
def truthyRat : Option ℚ → Bool
  | none => false
  | some q => q != 0

/-- Python truthiness of an optional bool: absent and False are falsy. -/
def truthyBool : Option Bool → Bool
  | none => false
  | some b => b

/-- ExtractedConstraints pydantic model (state.py lines 63-81): the
structured output of the constraint-extraction LLM call, after the
post-processing of Travel.py lines 67-74 (resolve_airport_code and
parse_natural_date live outside src/; they are only applied to truthy
fields and fall back to the raw value via the Python or-expression, so
they never change whether a field is present or truthy). -/
structure ExtractedConstraints where
  origin : Option String := none
  destination : Option String := none
  departure_date : Option String := none
  return_date : Option String := none
  budget_npr : Option ℚ := none
  adults : Nat := 1
  missing_fields : List String := []
deriving DecidableEq

/-- ExtractedConstraints.is_complete (state.py lines 78-81): Python
evaluates all([self.origin, self.destination, self.departure_date,
self.budget_npr]) and not self.missing_fields, i.e. truthiness of each
required field and emptiness of missing_fields. -/
def ExtractedConstraints.is_complete (c : ExtractedConstraints) : Bool :=
  (truthyStr c.origin && truthyStr c.destination &&
    truthyStr c.departure_date && truthyRat c.budget_npr) &&
  c.missing_fields.isEmpty

/-- Outcome of the structured-output LLM call inside
extract_constraints_node: either a parsed ExtractedConstraints value or
a raised exception carrying its message. -/
inductive ClassifierOutcome where
  | ok (extracted : ExtractedConstraints)
  | failure (msg : String)
deriving DecidableEq

/-- Python unary plus applied to a list object: the list type defines no
unary plus, so the interpreter raises TypeError. The source writes
state.get("errors", []) + + [msg] (Travel.py line 93), whose right
operand is the unary plus of a list. -/
def pyUnaryPlus (_l : List String) : Except String (List String) :=
  .error "TypeError: bad operand type for unary +: list"

/-- extract_constraints_node (Travel.py lines 29-94). Paths in source
order: empty user_query returns the two-key update of lines 34-37; a
successful LLM call returns the eight-key update of lines 78-87 built
from the post-processed ExtractedConstraints; a raised LLM call enters
the except arm of lines 88-94, whose dict display evaluates
state.get("errors", []) + + [f-string] and therefore raises TypeError
before the update is returned. -/
def extract_constraints_node (s : TravelState) (outcome : ClassifierOutcome) :
    Except String TravelState :=
  let query := s.user_query.getD ""
  if query.isEmpty then
    .ok { s with constraints_complete := some false,
                 missing_constraints := some ["user_query"] }
  else
    match outcome with
    | .ok extracted =>
        .ok { s with
          origin := extracted.origin,
          destination := extracted.destination,
          departure_date := extracted.departure_date,
          return_date := extracted.return_date,
          budget_npr := extracted.budget_npr,
          adults := some extracted.adults,
          constraints_complete := some extracted.is_complete,
          missing_constraints := some extracted.missing_fields }
    | .failure e =>
        match pyUnaryPlus [s!"Constraint extraction error: {e}"] with
        | .error exc => .error exc
        | .ok appended =>
            .ok { s with
              constraints_complete := some false,
              missing_constraints :=
                some ["origin", "destination", "departure_date", "budget_npr"],
              errors := some (s.errors.getD [] ++ appended) }

/-- Update dict carried by the terminal Command of validate_budget_node
(Travel.py lines 106-112): the keys it writes into the state. -/
structure BudgetCmdUpdate where
  budget_feasible : Option Bool := none
  errors : Option (List String) := none
deriving DecidableEq

/-- Return value of validate_budget_node: a langgraph Command carrying a
goto target and an optional update, or the Python None that the function
returns implicitly when control falls off its end (Travel.py line 119:
the feasible-and-complete path only prints and returns nothing). -/
inductive ValidateBudgetResult where
  | command (goto : String) (update : Option BudgetCmdUpdate)
  | pyNone
deriving DecidableEq

/-- Hardcoded minimum budget (Travel.py line 102). -/
def min_budget : ℚ := 10000

/-- Error string of the terminal branch (Travel.py line 110): the
f-string interpolates min_budget = 10000. -/
def budgetLowErrorMsg : String := "Budget too low. Minimum needed: 10000"

/-- validate_budget_node (Travel.py lines 96-119): budget defaults to 0
when absent; below min_budget it returns Command(goto="__end__") with
budget_feasible false and a one-element errors list; otherwise, if
constraints_complete is falsy, Command(goto="constraint_clarifier") with
no update; otherwise the function prints and implicitly returns None. -/
def validate_budget_node (s : TravelState) : ValidateBudgetResult :=
  let budget := s.budget_npr.getD 0
  if budget < min_budget then
    .command "__end__"
      (some { budget_feasible := some false,
              errors := some [budgetLowErrorMsg] })
  else if !(truthyBool s.constraints_complete) then
    .command "constraint_clarifier" none
  else
    .pyNone

/-- Outcome of awaiting one research task under asyncio.wait_for
(Travel.py lines 295-303): normal completion with a value, a timeout,
or a raised exception carrying its message. -/
inductive TaskOutcome where
  | success (v : PyValue)
  | timedOut
  | raised (msg : String)
deriving DecidableEq

/-- Slot value appended to results for one task (Travel.py lines
295-303): the awaited value on success, the error marker dict on
timeout or exception. -/
def taskSlotResult : TaskOutcome → PyValue
  | .success v => v
  | .timedOut => .pydict "Request timed out"
  | .raised msg => .pydict msg

/-- Coercion applied to each slot in the returned update (Travel.py
lines 310-314): the value itself when isinstance(value, list), else the
empty list. -/
def coerceToList : PyValue → List ResItem
  | .pylist items => items
  | _ => []

/-- research_executor_node, second definition, the one bound at import
time (Travel.py lines 215-314): exactly three tasks are appended (each
if/else arm of lines 240-291 appends one), each is awaited independently
with its own try/except, results is unpacked into the three slots, and
the returned update writes exactly the keys weather_data,
flight_options and hotel_options, each coerced to a list. The per-task
outcomes are inputs, one per task. -/
def research_executor_node (s : TravelState)
    (weatherOutcome flightOutcome hotelOutcome : TaskOutcome) : TravelState :=
  let weather_data := taskSlotResult weatherOutcome
  let flight_data := taskSlotResult flightOutcome
  let hotel_data := taskSlotResult hotelOutcome
  { s with
    weather_data := some (coerceToList weather_data),
    flight_options := some (coerceToList flight_data),
    hotel_options := some (coerceToList hotel_data) }

/-- Slot value the specification promises for one task outcome: the
list result of the task itself, and the empty list when the result was missing,
non-list, or an error marker. Stated from the spec wording, to be
compared with what research_executor_node computes. -/
def specSlot : TaskOutcome → List ResItem
  | .success (.pylist items) => items
  | _ => []

/-- Failure of one research task in the sense the claims quantify over:
the awaited task timed out or raised an exception (the two except arms
of Travel.py lines 299-303); a successful await of any value is not a
failure. -/
def isFailureOutcome : TaskOutcome → Bool
  | .success _ => false
  | .timedOut => true
  | .raised _ => true

/-- Resume step of human_approval_node (Travel.py lines 316-387). The
prompt string is assembled before the interrupt from the state (via
format_duration and format_flight_time, which live outside src/), so it
enters here as an argument. On resume, interrupt(approval_prompt)
returns the externally supplied resume value (main.py line 109 passes
the raw user message), which the source binds to approval_input and
never uses again; the returned update writes the single key
approval_prompt. In particular user_approved is not written. -/
def human_approval_resume (s : TravelState) (_resumeValue : String)
    (prompt : String) : TravelState :=
  { s with approval_prompt := some prompt }

/-- route_after_approval (Travel.py lines 389-394): the truthiness of
state.get("user_approved") selects booking_executor, anything else
selects constraint_clarifier. -/
def route_after_approval (s : TravelState) : String :=
  if truthyBool s.user_approved then "booking_executor"
  else "constraint_clarifier"

/-- Value held by the travel_state key of the root state. The source can
store either an actual travel sub-state dict or, as classify_intent_node
actually does, a bare function object (a first-class Python value),
embedded by its name. -/
inductive TravelStateSlot where
  | stateValue (ts : TravelState)
  | functionObject (pyName : String)
deriving DecidableEq

/-- AgentState TypedDict (state.py lines 5-21, total=False). The intent
key is embedded as an optional string: the runtime dict can be absent or
hold any value, the Literal annotation being unchecked at runtime. -/
structure AgentState where
  user_query : Option String := none
  user_phone : Option String := none
  intent : Option String := none
  travel_state : Option TravelStateSlot := none
  reminder_state : Option (List (String × String)) := none
  final_response : Option String := none
  error : Option String := none
deriving DecidableEq

/-- create_empty_travel_state (state.py lines 98-109): the default
travel sub-state record. Keys not listed in the source call are absent. -/
def create_empty_travel_state : TravelState :=
  { adults := some 1,
    constraints_complete := some false,
    missing_constraints := some [],
    estimated_cost_npr := some 0,
    budget_feasible := some false,
    whatsapp_sent := some false,
    errors := some [],
    retry_count := some 0 }

/-- Outcome of the intent-classification LLM call inside
classify_intent_node: a parsed result carrying intent and reasoning, or
a raised exception. -/
inductive IntentOutcome where
  | ok (intent : String) (reasoning : String)
  | failure (msg : String)
deriving DecidableEq

/-- classify_intent_node (Orchestrator.py lines 42-71): a classifier
failure degrades to intent "unknown"; the update always writes intent;
when the intent is travel_planning the source line 65 writes
updates["travel_state"] = create_empty_travel_state, i.e. it stores the
function object itself (no call parentheses in the source), not the
record the function would return; when the intent is reminder it stores
an empty dict in reminder_state. -/
def classify_intent_node (s : AgentState) (outcome : IntentOutcome) :
    AgentState :=
  let intent := match outcome with
    | .ok i _ => i
    | .failure _ => "unknown"
  let s1 := { s with intent := some intent }
  if intent = "travel_planning" then
    { s1 with
      travel_state := some (TravelStateSlot.functionObject "create_empty_travel_state") }
  else if intent = "reminder" then
    { s1 with reminder_state := some [] }
  else
    s1

/-- Routing table of route_to_subgraph (Orchestrator.py lines 82-87). -/
def routing_map : List (String × String) :=
  [("travel_planning", "travel_graph"),
   ("reminder", "reminder_graph"),
   ("creative", "creative_graph"),
   ("unknown", "unknown_handler")]

/-- route_to_subgraph (Orchestrator.py lines 73-89): the source indexes
the state with state["intent"], which raises KeyError when the key is
absent; with the key present it looks the value up in routing_map with
default "unknown_handler". -/
def route_to_subgraph (s : AgentState) : Except String String :=
  match s.intent with
  | none => .error "KeyError: intent"
  | some intent => .ok ((routing_map.lookup intent).getD "unknown_handler")

/-- Concrete travel state with the budget of the spec scenario (5000,
below the 10000 minimum) and constraints still incomplete. -/
def lowBudgetState : TravelState :=
  { user_query := some "Weekend getaway under 5k",
    budget_npr := some 5000 }

/-- Concrete travel state with a feasible budget and complete
constraints: the fall-through path of validate_budget_node. -/
def feasibleCompleteState : TravelState :=
  { user_query := some "Plan a trip from KTM to PKR",
    origin := some "KTM",
    destination := some "PKR",
    departure_date := some "2026-01-09",
    budget_npr := some 20000,
    adults := some 1,
    constraints_complete := some true,
    missing_constraints := some [] }

/-- Concrete travel state entering extraction with a non-empty query. -/
def extractionInputState : TravelState :=
  { user_query := some "Plan a trip from KTM to PKR" }

/-- Extraction output whose four required fields are all non-null while
the budget equals zero: non-null yet falsy in Python. -/
def zeroBudgetExtracted : ExtractedConstraints :=
  { origin := some "KTM",
    destination := some "PKR",
    departure_date := some "2026-01-09",
    budget_npr := some 0,
    adults := 1,
    missing_fields := [] }

/-- State produced by extract_constraints_node on extractionInputState
and zeroBudgetExtracted. -/
def zeroBudgetOutState : TravelState :=
  { user_query := some "Plan a trip from KTM to PKR",
    origin := some "KTM",
    destination := some "PKR",
    departure_date := some "2026-01-09",
    budget_npr := some 0,
    adults := some 1,
    constraints_complete := some false,
    missing_constraints := some [] }

/-- Fully truthy extraction output, for the completeness witness. -/
def completeExtracted : ExtractedConstraints :=
  { origin := some "KTM",
    destination := some "PKR",
    departure_date := some "2026-01-09",
    budget_npr := some 20000,
    adults := 1,
    missing_fields := [] }

/-- State produced by extract_constraints_node on extractionInputState
and completeExtracted. -/
def completeOutState : TravelState :=
  { user_query := some "Plan a trip from KTM to PKR",
    origin := some "KTM",
    destination := some "PKR",
    departure_date := some "2026-01-09",
    budget_npr := some 20000,
    adults := some 1,
    constraints_complete := some true,
    missing_constraints := some [] }

/-- Concrete travel state carrying one pre-existing error entry,
entering the Research Executor. -/
def researchInputState : TravelState :=
  { user_query := some "Plan a trip from KTM to PKR",
    origin := some "KTM",
    destination := some "PKR",
    departure_date := some "2026-01-09",
    budget_npr := some 20000,
    constraints_complete := some true,
    errors := some ["prior error"] }

/-- Concrete travel state suspended at the approval interrupt: research
results are present, user_approved has never been written. -/
def suspendedApprovalState : TravelState :=
  { user_query := some "Plan a trip from KTM to PKR",
    origin := some "KTM",
    destination := some "PKR",
    departure_date := some "2026-01-09",
    budget_npr := some 20000,
    flight_options := some ["flight-A"],
    hotel_options := some ["hotel-B"],
    weather_data := some [] }

/-- Prompt text presented at the approval interrupt (its exact content
is irrelevant to routing). -/
def approvalPromptText : String :=
  "Travel Options Found - Approve to proceed with booking?"

/-- Root state whose intent key is absent. -/
def absentIntentState : AgentState :=
  { user_query := some "hello there" }

/-- Root state whose intent key holds an unrecognized value. -/
def oddIntentState : AgentState :=
  { user_query := some "hello there", intent := some "chitchat" }

/-- Root state entering intent classification. -/
def classifyInputState : AgentState :=
  { user_query := some "Plan a trip from KTM to PKR" }

/-- Helper: the slot computed by the source (coerceToList of the awaited
or substituted value) coincides with the slot promised by the spec, for
every per-task outcome. -/
theorem coerceToList_taskSlotResult (o : TaskOutcome) :
    coerceToList (taskSlotResult o) = specSlot o := by
  cases o with
  | success v => cases v <;> rfl
  | timedOut => rfl
  | raised msg => rfl

/-- C2: for every state and every combination of per-task outcomes, the
Research Executor returns exactly the three slots weather_data,
flight_options and hotel_options, each equal to the list result of its
own task when that task succeeded with a list and the empty list
otherwise; in particular each slot is a function of its own outcome
only, so a timeout or exception in one task never prevents the other
two results from being returned. -/
theorem research_outcomes_isolated (s : TravelState)
    (w f h : TaskOutcome) :
    (research_executor_node s w f h).weather_data = some (specSlot w) ∧
    (research_executor_node s w f h).flight_options = some (specSlot f) ∧
    (research_executor_node s w f h).hotel_options = some (specSlot h) := by
  refine ⟨?_, ?_, ?_⟩ <;>
    simp [research_executor_node, coerceToList_taskSlotResult]

/-- C8 counterexample: concrete Research Executor run in which the
weather task raises while flights and hotels succeed. The weather slot
is empty and the other two are populated, but the errors list of the
result is exactly the prior errors list: no entry describing the
weather failure is appended, contrary to the claim. -/
theorem research_failure_errors_unchanged_cex :
    (research_executor_node researchInputState
        (.raised "weather service down")
        (.success (.pylist ["flight-A"]))
        (.success (.pylist ["hotel-B"]))).errors = some ["prior error"] ∧
    (research_executor_node researchInputState
        (.raised "weather service down")
        (.success (.pylist ["flight-A"]))
        (.success (.pylist ["hotel-B"]))).weather_data = some [] ∧
    (research_executor_node researchInputState
        (.raised "weather service down")
        (.success (.pylist ["flight-A"]))
        (.success (.pylist ["hotel-B"]))).flight_options
        = some ["flight-A"] ∧
    (research_executor_node researchInputState
        (.raised "weather service down")
        (.success (.pylist ["flight-A"]))
        (.success (.pylist ["hotel-B"]))).hotel_options
        = some ["hotel-B"] := by
  refine ⟨rfl, rfl, rfl, rfl⟩

/-- C8 amended: for every Research Executor run, over every combination
of per-task outcomes: whichever task fails — weather, flights or hotels
— and however it fails (timeout or raised exception), its slot in the
result is the empty list; whichever task succeeds with a list keeps
that list in its slot; and the errors list of the result is always
exactly the errors list of the input state — the per-task error marker
is discarded by the list coercion and no entry describing any failure
is ever appended to errors. In particular this covers every run in
which one task fails while the other two succeed, for each of the
three choices of failing task and both failure modes. -/
theorem research_failure_errors_unchanged (s : TravelState)
    (w f h : TaskOutcome) :
    (isFailureOutcome w = true →
      (research_executor_node s w f h).weather_data = some []) ∧
    (isFailureOutcome f = true →
      (research_executor_node s w f h).flight_options = some []) ∧
    (isFailureOutcome h = true →
      (research_executor_node s w f h).hotel_options = some []) ∧
    (∀ l, w = .success (.pylist l) →
      (research_executor_node s w f h).weather_data = some l) ∧
    (∀ l, f = .success (.pylist l) →
      (research_executor_node s w f h).flight_options = some l) ∧
    (∀ l, h = .success (.pylist l) →
      (research_executor_node s w f h).hotel_options = some l) ∧
    (research_executor_node s w f h).errors = s.errors := by
  refine ⟨?_, ?_, ?_, ?_, ?_, ?_, rfl⟩
  · intro hw
    cases w with
    | success v => simp [isFailureOutcome] at hw
    | timedOut => rfl
    | raised msg => rfl
  · intro hf
    cases f with
    | success v => simp [isFailureOutcome] at hf
    | timedOut => rfl
    | raised msg => rfl
  · intro hh
    cases h with
    | success v => simp [isFailureOutcome] at hh
    | timedOut => rfl
    | raised msg => rfl
  · intro l hl
    subst hl
    rfl
  · intro l hl
    subst hl
    rfl
  · intro l hl
    subst hl
    rfl

/-- C8 witness: the weather task times out while flights and hotels
succeed — the weather slot is empty, the two successful lists are kept
and the errors list is unchanged. -/
theorem research_failure_errors_unchanged_witness :
    (research_executor_node researchInputState .timedOut
        (.success (.pylist ["flight-A"]))
        (.success (.pylist ["hotel-B"]))).weather_data = some [] ∧
    (research_executor_node researchInputState .timedOut
        (.success (.pylist ["flight-A"]))
        (.success (.pylist ["hotel-B"]))).flight_options
        = some ["flight-A"] ∧
    (research_executor_node researchInputState .timedOut
        (.success (.pylist ["flight-A"]))
        (.success (.pylist ["hotel-B"]))).hotel_options
        = some ["hotel-B"] ∧
    (research_executor_node researchInputState .timedOut
        (.success (.pylist ["flight-A"]))
        (.success (.pylist ["hotel-B"]))).errors
        = researchInputState.errors :=
  ⟨(research_failure_errors_unchanged researchInputState .timedOut
      (.success (.pylist ["flight-A"]))
      (.success (.pylist ["hotel-B"]))).1 (by decide),
   (research_failure_errors_unchanged researchInputState .timedOut
      (.success (.pylist ["flight-A"]))
      (.success (.pylist ["hotel-B"]))).2.2.2.2.1 ["flight-A"] rfl,
   (research_failure_errors_unchanged researchInputState .timedOut
      (.success (.pylist ["flight-A"]))
      (.success (.pylist ["hotel-B"]))).2.2.2.2.2.1 ["hotel-B"] rfl,
   (research_failure_errors_unchanged researchInputState .timedOut
      (.success (.pylist ["flight-A"]))
      (.success (.pylist ["hotel-B"]))).2.2.2.2.2.2⟩

/-- C4: for every state whose budget (defaulting to 0 when absent) is
strictly below the 10000 minimum, Budget Validation returns the
terminal Command with goto __end__ — never research, never the
clarifier — recording budget_feasible false and a one-element errors
list whose message mentions 10000. -/
theorem low_budget_terminal (s : TravelState)
    (h : s.budget_npr.getD 0 < min_budget) :
    validate_budget_node s =
      .command "__end__"
        (some { budget_feasible := some false,
                errors := some [budgetLowErrorMsg] }) ∧
    ∃ pre post, budgetLowErrorMsg = pre ++ "10000" ++ post := by
  constructor
  · simp [validate_budget_node, h]
  · exact ⟨"Budget too low. Minimum needed: ", "", rfl⟩

/-- C4 witness: the spec scenario, budget 5000. -/
theorem low_budget_terminal_witness :
    lowBudgetState.budget_npr.getD 0 < min_budget ∧
    (validate_budget_node lowBudgetState =
      .command "__end__"
        (some { budget_feasible := some false,
                errors := some [budgetLowErrorMsg] }) ∧
     ∃ pre post, budgetLowErrorMsg = pre ++ "10000" ++ post) :=
  ⟨by decide, low_budget_terminal lowBudgetState (by decide)⟩

/-- C10: for every state in which budget_npr is absent, Budget
Validation treats the budget as 0 and returns the terminal infeasible
Command with budget_feasible false; in particular it never routes such
a state to the Constraint Clarifier. -/
theorem missing_budget_terminal (s : TravelState)
    (h : s.budget_npr = none) :
    validate_budget_node s =
      .command "__end__"
        (some { budget_feasible := some false,
                errors := some [budgetLowErrorMsg] }) := by
  have h0 : (0 : ℚ) < min_budget := by norm_num [min_budget]
  simp [validate_budget_node, h, h0]

/-- C10 witness: the empty travel state. -/
theorem missing_budget_terminal_witness :
    ({} : TravelState).budget_npr = none ∧
    validate_budget_node {} =
      .command "__end__"
        (some { budget_feasible := some false,
                errors := some [budgetLowErrorMsg] }) :=
  ⟨rfl, missing_budget_terminal {} rfl⟩

/-- C5: at a concrete state with feasible budget (20000) and complete
constraints, Budget Validation returns the Python None of the implicit
fall-through — it issues no Command at all, in particular none naming
research_executor, although its own return type annotation and the spec
promise an explicit directive to the Research Executor. -/
theorem feasible_complete_returns_none :
    validate_budget_node feasibleCompleteState = .pyNone ∧
    ∀ g u, validate_budget_node feasibleCompleteState ≠ .command g u := by
  have h0 : validate_budget_node feasibleCompleteState = .pyNone := by decide
  refine ⟨h0, fun g u hc => ?_⟩
  rw [h0] at hc
  exact ValidateBudgetResult.noConfusion hc

/-- C6: at a concrete state with a non-empty query, a raised classifier
call sends extract_constraints_node into its except arm, whose dict
display evaluates unary plus on a list and therefore raises TypeError
instead of returning the degraded update the claim describes. -/
theorem extraction_failure_raises_typeerror (s : TravelState)
    (e : String) (h : (s.user_query.getD "").isEmpty = false) :
    extract_constraints_node s (.failure e) =
      .error "TypeError: bad operand type for unary +: list" := by
  simp [extract_constraints_node, h, pyUnaryPlus]

/-- C6 witness: concrete non-empty query and classifier error. -/
theorem extraction_failure_raises_typeerror_witness :
    ((extractionInputState.user_query.getD "").isEmpty = false) ∧
    extract_constraints_node extractionInputState (.failure "boom") =
      .error "TypeError: bad operand type for unary +: list" :=
  ⟨by decide,
   extraction_failure_raises_typeerror extractionInputState "boom"
     (by decide)⟩

/-- C3 counterexample: a state actually produced by constraint
extraction in which missing_constraints is empty and all four required
fields are non-null (budget present but equal to 0), yet
constraints_complete is false — the claimed iff fails, because the
source tests Python truthiness, not nullness. -/
theorem constraints_complete_nonnull_counterexample :
    extract_constraints_node extractionInputState
        (.ok zeroBudgetExtracted) = .ok zeroBudgetOutState ∧
    zeroBudgetOutState.missing_constraints = some [] ∧
    zeroBudgetOutState.origin.isSome = true ∧
    zeroBudgetOutState.destination.isSome = true ∧
    zeroBudgetOutState.departure_date.isSome = true ∧
    zeroBudgetOutState.budget_npr.isSome = true ∧
    zeroBudgetOutState.constraints_complete = some false :=
  ⟨rfl, rfl, rfl, rfl, rfl, rfl, rfl⟩

/-- C3 amended: for every state produced by a successful constraint
extraction on a non-empty query, constraints_complete is true iff
missing_constraints is empty and all four required fields are truthy in
the Python sense: non-null and non-empty for the three strings,
non-null and non-zero for the budget. -/
theorem constraints_complete_truthy_iff (s t : TravelState)
    (c : ExtractedConstraints)
    (hq : (s.user_query.getD "").isEmpty = false)
    (h : extract_constraints_node s (.ok c) = .ok t) :
    t.constraints_complete = some true ↔
      (t.missing_constraints = some [] ∧ truthyStr t.origin = true ∧
       truthyStr t.destination = true ∧
       truthyStr t.departure_date = true ∧
       truthyRat t.budget_npr = true) := by
  simp only [extract_constraints_node, hq, Bool.false_eq_true, if_false,
    Except.ok.injEq] at h
  subst h
  simp [ExtractedConstraints.is_complete, List.isEmpty_iff,
    and_assoc]
  tauto

/-- C3 witness: a fully truthy extraction, for which both sides of the
amended iff hold. -/
theorem constraints_complete_truthy_iff_witness :
    ((extractionInputState.user_query.getD "").isEmpty = false) ∧
    (extract_constraints_node extractionInputState
        (.ok completeExtracted) = .ok completeOutState) ∧
    (completeOutState.constraints_complete = some true ↔
      (completeOutState.missing_constraints = some [] ∧
       truthyStr completeOutState.origin = true ∧
       truthyStr completeOutState.destination = true ∧
       truthyStr completeOutState.departure_date = true ∧
       truthyRat completeOutState.budget_npr = true)) :=
  ⟨by decide, rfl,
   constraints_complete_truthy_iff extractionInputState completeOutState
     completeExtracted (by decide) rfl⟩

/-- C7 counterexample: on a state whose intent key is absent,
route_to_subgraph raises KeyError instead of returning
unknown_handler, so it is not total on states. -/
theorem route_to_subgraph_absent_intent_raises :
    route_to_subgraph absentIntentState = .error "KeyError: intent" := by
  rfl

/-- C7 amended: for every state whose intent key is present (holding
any string), route_to_subgraph returns normally with one of the four
subgraph names, and every unrecognized value defaults to
unknown_handler; only an absent intent key raises. -/
theorem route_to_subgraph_present_total (s : AgentState) (i : String)
    (h : s.intent = some i) :
    ∃ r, route_to_subgraph s = .ok r ∧
      (r = "travel_graph" ∨ r = "reminder_graph" ∨
       r = "creative_graph" ∨ r = "unknown_handler") ∧
      (i ∉ ["travel_planning", "reminder", "creative", "unknown"] →
        r = "unknown_handler") := by
  have hr : route_to_subgraph s =
      .ok ((routing_map.lookup i).getD "unknown_handler") := by
    simp [route_to_subgraph, h]
  by_cases h1 : i = "travel_planning"
  · subst h1
    exact ⟨"travel_graph", by rw [hr]; rfl, by decide, by decide⟩
  by_cases h2 : i = "reminder"
  · subst h2
    exact ⟨"reminder_graph", by rw [hr]; rfl, by decide, by decide⟩
  by_cases h3 : i = "creative"
  · subst h3
    exact ⟨"creative_graph", by rw [hr]; rfl, by decide, by decide⟩
  by_cases h4 : i = "unknown"
  · subst h4
    exact ⟨"unknown_handler", by rw [hr]; rfl, by decide, by decide⟩
  have e1 : (i == "travel_planning") = false := beq_eq_false_iff_ne.mpr h1
  have e2 : (i == "reminder") = false := beq_eq_false_iff_ne.mpr h2
  have e3 : (i == "creative") = false := beq_eq_false_iff_ne.mpr h3
  have e4 : (i == "unknown") = false := beq_eq_false_iff_ne.mpr h4
  have hl : routing_map.lookup i = none := by
    simp [routing_map, List.lookup, e1, e2, e3, e4]
  exact ⟨"unknown_handler", by rw [hr, hl]; rfl, by decide, fun _ => rfl⟩

/-- C7 witness: a present but unrecognized intent value. -/
theorem route_to_subgraph_present_total_witness :
    oddIntentState.intent = some "chitchat" ∧
    ∃ r, route_to_subgraph oddIntentState = .ok r ∧
      (r = "travel_graph" ∨ r = "reminder_graph" ∨
       r = "creative_graph" ∨ r = "unknown_handler") ∧
      ("chitchat" ∉ ["travel_planning", "reminder", "creative", "unknown"] →
        r = "unknown_handler") :=
  ⟨rfl, route_to_subgraph_present_total oddIntentState "chitchat" rfl⟩

/-- C9: when the Intent Classifier classifies a query as
travel_planning, the update stores in travel_state the bare function
object create_empty_travel_state (the source omits the call
parentheses), not a travel sub-state record — in particular not the
default record, whose fields (listed in the final conjuncts) are what
the claim describes. -/
theorem travel_state_set_to_function_object :
    (classify_intent_node classifyInputState
        (.ok "travel_planning" "wants a trip")).travel_state =
      some (TravelStateSlot.functionObject "create_empty_travel_state") ∧
    (∀ ts : TravelState,
      (classify_intent_node classifyInputState
          (.ok "travel_planning" "wants a trip")).travel_state ≠
        some (TravelStateSlot.stateValue ts)) ∧
    create_empty_travel_state.adults = some 1 ∧
    create_empty_travel_state.constraints_complete = some false ∧
    create_empty_travel_state.missing_constraints = some [] ∧
    create_empty_travel_state.errors = some [] ∧
    create_empty_travel_state.budget_feasible = some false ∧
    create_empty_travel_state.whatsapp_sent = some false ∧
    create_empty_travel_state.estimated_cost_npr = some 0 := by
  have h0 : (classify_intent_node classifyInputState
      (.ok "travel_planning" "wants a trip")).travel_state =
      some (TravelStateSlot.functionObject "create_empty_travel_state") := by
    decide
  refine ⟨h0, fun ts hc => ?_, by decide, by decide, by decide, by decide,
    by decide, by decide, by decide⟩
  rw [h0] at hc
  simp at hc

/-- C1: the resume value delivered to the suspended approval step is
discarded — the resumed node leaves user_approved exactly as it was for
every state, resume value and prompt — so resuming the concrete
suspended state with the affirmative value yes still routes to
constraint_clarifier and never to booking_executor, contrary to the
round-trip the claim describes. -/
theorem approval_resume_value_discarded :
    (∀ (s : TravelState) (resumeValue prompt : String),
      (human_approval_resume s resumeValue prompt).user_approved =
        s.user_approved) ∧
    route_after_approval
      (human_approval_resume suspendedApprovalState "yes"
        approvalPromptText) = "constraint_clarifier" ∧
    route_after_approval
      (human_approval_resume suspendedApprovalState "yes"
        approvalPromptText) ≠ "booking_executor" := by
  refine ⟨fun s r p => rfl, by decide, by decide⟩

end TravelOps
